import Mathlib

/-!
# Verification of the DMarket auth/product backend

A shallow embedding of the authentication, authorization and product-CRUD
logic of the Flask application (`app/auth.py`, `app/routes/product.py`,
`app/routes/auth.py`, `app/__init__.py`, `app/schemas.py`,
`app/models/*.py`), together with theorems settling the specification
claims about it.

Modelling conventions:
* Python values that flow through JSON payloads are modelled by `PyVal`,
  with Python truthiness (`bool(x)`) as `PyVal.truthy`.
* The database is a pure record of user and product rows; a committed
  transaction is an explicit state change, and `get_or_create_user`
  additionally reports how many commits it performed.
* Outbound network and cryptography (the JWKS fetch result and what
  `jose.jwt.decode` returns for the request token and matched key) enter
  the model as explicit inputs: a list of fetched keys, the token header
  key id, and a `DecodeOutcome` oracle.
* A Python exception escaping a function is modelled with an explicit
  error constructor (`pyError` / `PyExc`) carrying `str(e)`.
-/

namespace DMarket

/-- A Python/JSON value as it appears in token payloads and user rows. -/
inductive PyVal where
  | pyNone : PyVal
  | pyBool (b : Bool) : PyVal
  | pyStr (s : String) : PyVal
  | pyNum (q : ℚ) : PyVal
  | pyDict (fields : List (String × PyVal)) : PyVal

/-- Python truthiness `bool(x)`: `None`/`False`/`""`/`0`/`{}` are falsy. -/
def PyVal.truthy : PyVal → Bool
  | .pyNone => false
  | .pyBool b => b
  | .pyStr s => !(s == "")
  | .pyNum q => !(q == 0)
  | .pyDict fields => !fields.isEmpty

/-- A decoded JWT claim set (a Python dict). -/
abbrev Payload := List (String × PyVal)

/-- `payload.get(k)`: first binding of key `k`, if any. -/
def pget (p : Payload) (k : String) : Option PyVal :=
  (p.find? (fun kv => kv.1 == k)).map (fun kv => kv.2)

/-! ## Token verification (`auth.py: verify_jwt`) -/

/-- One JSON Web Key from the fetched `jwks.json` key set. -/
structure JwksKey where
  kty : String
  kid : String
  use : String
  n : String
  e : String
deriving DecidableEq

/-- What `jose.jwt.decode(token, rsa_key, algorithms, audience, issuer)`
does for the request's token and the matched key: succeed with the claim
set, or raise `ExpiredSignatureError`, `JWTClaimsError` (audience/issuer
mismatch), or any other signature/decode exception. -/
inductive DecodeOutcome where
  | ok (payload : Payload) : DecodeOutcome
  | expired : DecodeOutcome
  | claimsError : DecodeOutcome
  | otherError : DecodeOutcome

/-- Result of `verify_jwt`: a verified payload, a raised `AuthError`
(code, description, HTTP status), or an untyped Python exception
escaping (modelled by its `str(e)` message). -/
inductive VerifyResult where
  | payload (p : Payload) : VerifyResult
  | authError (code : String) (description : String) (status : Nat) : VerifyResult
  | pyError (message : String) : VerifyResult

/-- `rsa_key` selection loop of `verify_jwt`: starts from the empty dict
and overwrites it at every key whose `kid` matches the token header's
`kid`, so the last match wins. -/
def selectRsaKey (keys : List JwksKey) (headerKid : String) : Option JwksKey :=
  keys.foldl (fun acc key => if key.kid == headerKid then some key else acc) none

/-- `auth.py: verify_jwt`.  The outer `try/except` only logs and
re-raises, so it is the identity on the result.  In the inner
`except Exception:` branch the logging line reads `str(e)` but no `e` is
bound in that scope, so the branch raises `NameError` ("name 'e' is not
defined") and the `AuthError("invalid_header", "Unable to parse
authentication token.")` on the following line is unreachable. -/
def verify_jwt (keys : List JwksKey) (headerKid : String)
    (dec : DecodeOutcome) : VerifyResult :=
  match selectRsaKey keys headerKid with
  | some _ =>
    match dec with
    | .ok p => .payload p
    | .expired => .authError "token_expired" "Token is expired" 401
    | .claimsError =>
        .authError "invalid_claims"
          "Incorrect claims, please check the audience and issuer" 401
    | .otherError => .pyError "name 'e' is not defined"
  | none => .authError "invalid_header" "Unable to find appropriate key" 401

/-! ## Authorization header extraction (`auth.py: get_token_auth_header`) -/

/-- Result of `get_token_auth_header`. -/
inductive TokenSource where
  | token (t : String) : TokenSource
  | authError (code : String) (description : String) (status : Nat) : TokenSource
  | pyError (message : String) : TokenSource
deriving DecidableEq

/-- Worker for Python `str.split()` with no separator: split on runs of
whitespace, discarding empty pieces.  `cur` holds the characters of the
current piece in reverse. -/
def splitWsAux : List Char → List Char → List String
  | [], cur => if cur.isEmpty then [] else [String.mk cur.reverse]
  | c :: cs, cur =>
    if c.isWhitespace then
      (if cur.isEmpty then [] else [String.mk cur.reverse]) ++ splitWsAux cs []
    else
      splitWsAux cs (c :: cur)

/-- Python `s.split()` (no separator argument). -/
def pySplit (s : String) : List String :=
  splitWsAux s.toList []

/-- ASCII lowering of one character (all `parts[0].lower()` is compared
against is the ASCII word `"bearer"`). -/
def charLower (c : Char) : Char :=
  if 'A' ≤ c ∧ c ≤ 'Z' then Char.ofNat (c.toNat + 32) else c

/-- Python `s.lower()` restricted to ASCII case mapping. -/
def strLower (s : String) : String :=
  String.mk (s.toList.map charLower)

/-- The session fallback of `get_token_auth_header`: when
`'user' in session and 'access_token' in session['user']`, return the
stored token, else raise `authorization_header_missing`.  `sess` is the
stored access token when the session has one. -/
def sessionFallback (sess : Option String) : TokenSource :=
  match sess with
  | some t => .token t
  | none =>
      .authError "authorization_header_missing"
        "Authorization header is expected" 401

/-- The checks of `get_token_auth_header` on `parts = auth.split()`:
for an empty `parts` (a non-empty all-whitespace header) the access
`parts[0]` raises `IndexError` ("list index out of range"). -/
def parseAuthParts : List String → TokenSource
  | [] => .pyError "list index out of range"
  | p0 :: rest =>
    if !(strLower p0 == "bearer") then
      .authError "invalid_header"
        "Authorization header must start with Bearer" 401
    else
      match rest with
      | [] => .authError "invalid_header" "Token not found" 401
      | [t] => .token t
      | _ :: _ :: _ =>
          .authError "invalid_header"
            "Authorization header must be Bearer token" 401

/-- `auth.py: get_token_auth_header`.  `hdr` is
`request.headers.get("Authorization", None)`.  Note `if not auth:` is
also taken for the empty string. -/
def get_token_auth_header (hdr : Option String) (sess : Option String) :
    TokenSource :=
  match hdr with
  | none => sessionFallback sess
  | some a =>
    if a == "" then sessionFallback sess
    else parseAuthParts (pySplit a)

/-! ## Data model (`models/user.py`, `models/product.py`) -/

/-- A row of the `users` table.  The `email` column receives
`payload.get('email', '')` unchanged, so it is kept as a `PyVal`. -/
structure User where
  user_id : String
  email : PyVal
  name : Option PyVal
  is_admin : Bool

/-- A row of the `products` table.  `to_dict` serializes exactly these
six fields, so the record itself stands for the serialized dict. -/
structure Product where
  id : Nat
  name : String
  description : Option String
  price : ℚ
  quantity : Int
  user_id : String
deriving DecidableEq

/-- The persistence store: committed user and product rows, plus the
auto-increment counter for product ids. -/
structure DB where
  users : List User
  products : List Product
  nextProductId : Nat

/-- `User.query.get(user_id)`: primary-key lookup. -/
def findUser (db : DB) (uid : String) : Option User :=
  db.users.find? (fun u => u.user_id == uid)

/-- `db.session.get(Product, product_id)`: primary-key lookup. -/
def findProduct (db : DB) (pid : Nat) : Option Product :=
  db.products.find? (fun p => p.id == pid)

/-! ## User resolution (`auth.py: get_or_create_user`) -/

/-- The provider-namespaced custom claim key read by
`get_or_create_user`. -/
def app_metadata_key : String := "https://localhost:5000/app_metadata"

/-- `bool(payload.get('https://localhost:5000/app_metadata', False))`. -/
def claimIsAdmin (p : Payload) : Bool :=
  ((pget p app_metadata_key).getD (.pyBool false)).truthy

/-- `payload['sub']`.  A missing key raises `KeyError`; a verified token
always carries a string subject, so non-string subjects are outside the
model and also map to `none`. -/
def subOf (p : Payload) : Option String :=
  match pget p "sub" with
  | some (.pyStr s) => some s
  | _ => none

/-- Result of `get_or_create_user`: the resolved user, the store after
the call, and the number of committed create-or-update transactions
(0 or 1). -/
structure GocuOut where
  user : User
  db : DB
  writes : Nat

/-- `auth.py: get_or_create_user`.  Returns `none` when `payload['sub']`
raises `KeyError`.  Commit failures (rollback and re-raise) are not
injected: every attempted commit succeeds in the model. -/
def get_or_create_user (db : DB) (p : Payload) : Option GocuOut :=
  match subOf p with
  | none => none
  | some user_id =>
    let is_admin := claimIsAdmin p
    match findUser db user_id with
    | none =>
      let email := (pget p "email").getD (.pyStr "")
      -- `payload.get('name') or None`: a falsy name collapses to `None`.
      let name := match pget p "name" with
                  | some v => if v.truthy then some v else none
                  | none => none
      let user : User := ⟨user_id, email, name, is_admin⟩
      some ⟨user, { db with users := db.users ++ [user] }, 1⟩
    | some user =>
      if user.is_admin != is_admin then
        let user2 : User := { user with is_admin := is_admin }
        let users2 := db.users.map
          (fun v => if v.user_id == user_id then { v with is_admin := is_admin } else v)
        some ⟨user2, { db with users := users2 }, 1⟩
      else
        some ⟨user, db, 0⟩

/-! ## Exceptions, responses and the application boundary
(`auth.py: AuthError`, `app/__init__.py: handle_auth_error`,
`handle_exception`) -/

/-- A Python exception escaping a handler or guard: a werkzeug
`HTTPException` (from `abort`), the application's `AuthError`, or any
other exception carrying `str(e)`. -/
inductive PyExc where
  | httpExc (status : Nat) (description : String) : PyExc
  | authErr (code : String) (description : String) (status : Nat) : PyExc
  | other (message : String) : PyExc
deriving DecidableEq

/-- werkzeug's default description for an `abort(status)` with no
description argument. -/
def werkzeugDefaultDescription : Nat → String
  | 401 => "The server could not verify that you are authorized to access the URL requested. You either supplied the wrong credentials (e.g. a bad password), or your browser doesn't understand how to supply the credentials required."
  | 403 => "You don't have the permission to access the requested resource. It is either read-protected or not readable by the server."
  | 404 => "The requested URL was not found on the server. If you entered the URL manually please check your spelling and try again."
  | _ => ""

/-- `flask.abort(status)` / `flask.abort(status, description=...)`. -/
def abortExc (status : Nat) (description : Option String) : PyExc :=
  .httpExc status (description.getD (werkzeugDefaultDescription status))

/-- The reason phrase werkzeug prints in `str(e)` for an HTTPException. -/
def httpStatusName : Nat → String
  | 401 => "Unauthorized"
  | 403 => "Forbidden"
  | 404 => "Not Found"
  | _ => ""

/-- `str(e)` for an escaping exception, as interpolated into the
`invalid_token` description by `requires_auth`. -/
def PyExc.str : PyExc → String
  | .httpExc status description =>
      toString status ++ " " ++ httpStatusName status ++ ": " ++ description
  | .authErr _ description _ => description
  | .other message => message

/-- A JSON response body. -/
inductive Body where
  | message (m : String) : Body
  | errorBody (code : String) (description : String) : Body
  | errorMsg (m : String) : Body
  | productList (l : List Product) : Body
  | httpBody (status : Nat) (description : String) : Body
  | validationError : Body
deriving DecidableEq

/-- An HTTP response: status code and JSON body. -/
structure Response where
  status : Nat
  body : Body
deriving DecidableEq

/-- Result of running a view function: a returned response or an
escaping exception, in both cases with the store as committed so far. -/
inductive ReqResult where
  | resp (r : Response) (db : DB) : ReqResult
  | exc (e : PyExc) (db : DB) : ReqResult

/-- The application-level error boundary of `create_app`:
`handle_auth_error` turns an `AuthError` into `jsonify(e.error)` with its
status; `handle_exception` returns an `HTTPException` unchanged and maps
every other exception to a generic 500 body. -/
def appBoundary : ReqResult → Response × DB
  | .resp r db => (r, db)
  | .exc (.authErr code description status) db =>
      (⟨status, .errorBody code description⟩, db)
  | .exc (.httpExc status description) db =>
      (⟨status, .httpBody status description⟩, db)
  | .exc (.other _) db =>
      (⟨500, .errorMsg "An unexpected error occurred"⟩, db)

/-! ## Guards (`auth.py: requires_auth`, `requires_admin`) -/

/-- A view handler: takes the resolved current user and the store,
returns a response with the new store or raises. -/
abbrev Handler := User → DB → Except PyExc (Response × DB)

/-- `auth.py: requires_admin`.  `cu` is `g.current_user` when set.  With
no user in context it aborts 401; `g.current_user` is never a falsy
object when set, so otherwise a non-admin aborts 403 and an admin runs
the wrapped function. -/
def requires_admin (cu : Option User) (f : Handler) (db : DB) :
    Except PyExc (Response × DB) :=
  match cu with
  | none => .error (abortExc 401 none)
  | some user =>
    if user.is_admin then f user db
    else .error (abortExc 403 none)

/-- `auth.py: requires_auth` applied to one request.  The `try` block
covers header extraction, verification, user resolution AND the wrapped
handler call (`return f(*args, **kwargs)` is inside the `try`): an
`AuthError` from any of them is returned as `jsonify(e.error)` with its
status, and every other exception — including a werkzeug `HTTPException`
raised by `abort` inside the handler — is re-raised as
`AuthError("invalid_token", str(e), 401)`, which propagates to the
application boundary.  A payload without `'sub'` raises `KeyError('sub')`
whose `str` is `"'sub'"`. -/
def requires_auth_run (hdr : Option String) (sess : Option String)
    (keys : List JwksKey) (headerKid : String) (dec : DecodeOutcome)
    (db : DB) (f : Handler) : ReqResult :=
  match get_token_auth_header hdr sess with
  | .authError code description status =>
      .resp ⟨status, .errorBody code description⟩ db
  | .pyError m => .exc (.authErr "invalid_token" m 401) db
  | .token _t =>
    match verify_jwt keys headerKid dec with
    | .authError code description status =>
        .resp ⟨status, .errorBody code description⟩ db
    | .pyError m => .exc (.authErr "invalid_token" m 401) db
    | .payload p =>
      match get_or_create_user db p with
      | none => .exc (.authErr "invalid_token" "'sub'" 401) db
      | some out =>
        match f out.user out.db with
        | .ok (r, db2) => .resp r db2
        | .error (.authErr code description status) =>
            .resp ⟨status, .errorBody code description⟩ out.db
        | .error e => .exc (.authErr "invalid_token" e.str 401) out.db

/-- An unprotected view function run directly under the application
boundary (no `requires_auth` wrapper). -/
def unprotected_run (f : DB → Except PyExc (Response × DB)) (db : DB) :
    ReqResult :=
  match f db with
  | .ok (r, db2) => .resp r db2
  | .error e => .exc e db

/-! ## Request schemas (`schemas.py`) and their validation -/

/-- `schemas.py: ProductInput` after validation. -/
structure ProductInput where
  name : String
  description : Option String
  price : ℚ
  quantity : Int

/-- The JSON body of a create request: each field present or absent. -/
structure RawProductInput where
  name : Option String
  description : Option String
  price : Option ℚ
  quantity : Option Int

/-- flask-openapi3 body validation against `ProductInput`: `name`,
`price` (`gt=0`) and `quantity` (`gt=0`) are required, `description`
optional.  `none` means a 422 validation-error response. -/
def validateProductInput (r : RawProductInput) : Option ProductInput :=
  match r.name, r.price, r.quantity with
  | some n, some pr, some q =>
    if 0 < pr ∧ 0 < q then some ⟨n, r.description, pr, q⟩ else none
  | _, _, _ => none

/-- `schemas.py: ProductUpdate`: all three fields optional. -/
structure ProductUpdate where
  description : Option String
  price : Option ℚ
  quantity : Option Int

/-- flask-openapi3 body validation against `ProductUpdate`: a present
`price` or `quantity` must satisfy `gt=0`. -/
def validateProductUpdate (b : ProductUpdate) : Bool :=
  (match b.price with
   | some pr => decide (0 < pr)
   | none => true)
  &&
  (match b.quantity with
   | some q => decide (0 < q)
   | none => true)

/-! ## Product handlers (`routes/product.py`) -/

/-- `routes/product.py: get_products`. -/
def get_products (db : DB) : Response :=
  if db.products.isEmpty then ⟨201, .message "The Products database is empty"⟩
  else ⟨200, .productList db.products⟩

/-- `routes/product.py: add_product` (body already validated).  The
handler's own `try/except` only matters for commit failures, which are
not injected. -/
def add_product (body : ProductInput) (user : User) (db : DB) :
    Except PyExc (Response × DB) :=
  if body.name == "" then .ok (⟨400, .message "Name is required"⟩, db)
  else if body.price < 1 then
    .ok (⟨400, .message "Price must be higher than 0."⟩, db)
  else if body.quantity < 1 then
    .ok (⟨400, .message "Quantity must be higher than 0."⟩, db)
  else
    let p : Product := ⟨db.nextProductId, body.name, body.description,
      body.price, body.quantity, user.user_id⟩
    .ok (⟨202, .message "Product added successfully!"⟩,
      { db with products := db.products ++ [p],
                nextProductId := db.nextProductId + 1 })

/-- The description statement of `update_product`:
`if body.description:` assigns only a truthy value, so `None` and `""`
both leave the description alone. -/
def descStep (product : Product) (d : Option String) : Product :=
  match d with
  | some s => if s == "" then product else { product with description := some s }
  | none => product

/-- The field updates of `update_product` applied to the fetched
product, in source order: description (`descStep`), then price, then
quantity, with early `400` returns when a present price/quantity is
`< 1`.  An early return skips `db.session.commit()`, and the session is
rolled back at request teardown, so the store is unchanged in that
case. -/
def applyUpdate (product : Product) (body : ProductUpdate) :
    Except Response Product :=
  let p1 := descStep product body.description
  match body.price with
  | some pr =>
    if pr < 1 then .error ⟨400, .message "Price must be higher than 0."⟩
    else
      let p2 := { p1 with price := pr }
      match body.quantity with
      | some q =>
        if q < 1 then .error ⟨400, .message "Quantity must be higher than 0."⟩
        else .ok { p2 with quantity := q }
      | none => .ok p2
  | none =>
    match body.quantity with
    | some q =>
      if q < 1 then .error ⟨400, .message "Quantity must be higher than 0."⟩
      else .ok { p1 with quantity := q }
    | none => .ok p1

/-- Commit of the mutated ORM product object: the row with its id is
replaced in place. -/
def replaceProduct (db : DB) (pid : Nat) (p2 : Product) : DB :=
  { db with products := db.products.map (fun p => if p.id == pid then p2 else p) }

/-- `routes/product.py: update_product` (body already validated). -/
def update_product (pid : Nat) (body : ProductUpdate) : Handler :=
  fun user db =>
    match findProduct db pid with
    | none => .ok (⟨404, .message "Product not found."⟩, db)
    | some product =>
      if !(product.user_id == user.user_id) && !user.is_admin then
        .error (abortExc 403 (some "You don't have permission to edit this product."))
      else
        match applyUpdate product body with
        | .error r => .ok (r, db)
        | .ok p2 =>
            .ok (⟨203, .message "Product updated successfully."⟩,
              replaceProduct db pid p2)

/-- `routes/product.py: delete_product`. -/
def delete_product (pid : Nat) : Handler :=
  fun user db =>
    match findProduct db pid with
    | none => .ok (⟨404, .message "Product not found"⟩, db)
    | some product =>
      if !(product.user_id == user.user_id) && !user.is_admin then
        .error (abortExc 403 (some "You don't have permission to delete this product."))
      else
        .ok (⟨200, .message "Product deleted successfully."⟩,
          { db with products := db.products.filter (fun p => !(p.id == pid)) })

/-! ## Admin promotion (`routes/auth.py: set_admin`) -/

/-- Column comparison `User.email == body.email` (the column holds
whatever the payload carried; SQL equality against a string). -/
def PyVal.eqStr : PyVal → String → Bool
  | .pyStr s, t => s == t
  | _, _ => false

/-- `routes/auth.py: set_admin` (inside `requires_auth` and
`requires_admin`).  `syncOk` is whether the management-API patch against
the identity provider succeeds. -/
def set_admin (email : String) (syncOk : Bool) : Handler :=
  fun _user db =>
    match db.users.find? (fun u => u.email.eqStr email) with
    | none => .ok (⟨404, .message "User not found"⟩, db)
    | some target =>
      let users2 := db.users.map
        (fun v => if v.user_id == target.user_id then { v with is_admin := true } else v)
      let db2 := { db with users := users2 }
      if syncOk then
        .ok (⟨200, .message "User set as admin successfully in both local database and Auth0"⟩, db2)
      else
        .ok (⟨500, .message "User set as admin in local database, but failed to update Auth0"⟩, db2)

/-! ## Full endpoint pipelines (route registration order:
flask-openapi3 body validation, then `requires_auth`, then the inner
guards/handler) -/

/-- `POST /products/create`. -/
def create_endpoint (hdr : Option String) (sess : Option String)
    (keys : List JwksKey) (headerKid : String) (dec : DecodeOutcome)
    (raw : RawProductInput) (db : DB) : Response × DB :=
  match validateProductInput raw with
  | none => (⟨422, .validationError⟩, db)
  | some body =>
      appBoundary (requires_auth_run hdr sess keys headerKid dec db (add_product body))

/-- `PUT /products/{product_id}/update`. -/
def update_endpoint (hdr : Option String) (sess : Option String)
    (keys : List JwksKey) (headerKid : String) (dec : DecodeOutcome)
    (pid : Nat) (body : ProductUpdate) (db : DB) : Response × DB :=
  if validateProductUpdate body then
    appBoundary (requires_auth_run hdr sess keys headerKid dec db (update_product pid body))
  else (⟨422, .validationError⟩, db)

/-- `DELETE /products/{product_id}/delete`. -/
def delete_endpoint (hdr : Option String) (sess : Option String)
    (keys : List JwksKey) (headerKid : String) (dec : DecodeOutcome)
    (pid : Nat) (db : DB) : Response × DB :=
  appBoundary (requires_auth_run hdr sess keys headerKid dec db (delete_product pid))

/-- `POST /admin/set`: `requires_auth` sets `g.current_user` to the
resolved user, then `requires_admin` reads it back. -/
def admin_set_endpoint (hdr : Option String) (sess : Option String)
    (keys : List JwksKey) (headerKid : String) (dec : DecodeOutcome)
    (email : String) (syncOk : Bool) (db : DB) : Response × DB :=
  appBoundary (requires_auth_run hdr sess keys headerKid dec db
    (fun u db2 => requires_admin (some u) (set_admin email syncOk) db2))

/-! ## Spec-side contract for header extraction (compared with the
implementation for claim C2) -/

/-- The amended C2 contract, phrased as the claim is: an absent or empty
header falls back to the session; otherwise the header is classified by
its number of whitespace-separated parts and its first part, with the
whitespace-only header (zero parts) raising `IndexError`. -/
def tokenHeaderContract (hdr : Option String) (sess : Option String) :
    TokenSource :=
  if (hdr.getD "") == "" then
    match sess with
    | some t => .token t
    | none =>
        .authError "authorization_header_missing"
          "Authorization header is expected" 401
  else
    let parts := pySplit (hdr.getD "")
    if parts.length == 0 then .pyError "list index out of range"
    else if !(strLower (parts.headD "") == "bearer") then
      .authError "invalid_header"
        "Authorization header must start with Bearer" 401
    else if parts.length == 1 then
      .authError "invalid_header" "Token not found" 401
    else if decide (parts.length > 2) then
      .authError "invalid_header"
        "Authorization header must be Bearer token" 401
    else .token (parts.getD 1 "")

/-! ## Concrete fixtures used by the closed theorems and witnesses -/

/-- A JWKS key with key id `kid1`. -/
def exKey : JwksKey := ⟨"RSA", "kid1", "sig", "modulus", "exponent"⟩

/-- A non-admin user who owns the example product. -/
def alice : User := ⟨"auth0|alice", .pyStr "alice@example.com", none, false⟩

/-- A non-admin user distinct from the product owner. -/
def bob : User := ⟨"auth0|bob", .pyStr "bob@example.com", none, false⟩

/-- An admin user (admin flag true). -/
def adminAlice : User := ⟨"auth0|alice", .pyStr "alice@example.com", none, true⟩

/-- The promotion target for `/admin/set`. -/
def carol : User := ⟨"auth0|carol", .pyStr "x@example.com", none, false⟩

/-- Verified claims for `alice` (no admin-metadata claim). -/
def aliceP : Payload := [("sub", .pyStr "auth0|alice")]

/-- Verified claims for `alice` carrying a truthy admin-metadata claim. -/
def alicePAdmin : Payload :=
  [("sub", .pyStr "auth0|alice"),
   ("https://localhost:5000/app_metadata", .pyBool true)]

/-- Verified claims for `bob` (no admin-metadata claim). -/
def bobP : Payload := [("sub", .pyStr "auth0|bob")]

/-- A product owned by `alice`. -/
def widget : Product := ⟨1, "OldWidget", some "old desc", 20, 5, "auth0|alice"⟩

/-- Store for the ownership scenarios: `alice`, `bob`, and a product of
`alice`. -/
def exDb3 : DB := ⟨[alice, bob], [widget], 2⟩

/-- Store for the admin scenarios: an admin, a non-admin, and the
promotion target. -/
def exDb4 : DB := ⟨[adminAlice, bob, carol], [], 1⟩

/-- Store after promoting `carol`. -/
def exDb4after : DB :=
  ⟨[adminAlice, bob, ⟨"auth0|carol", .pyStr "x@example.com", none, true⟩], [], 1⟩

/-- Store for the creation scenario: just `alice`, no products. -/
def exDb7 : DB := ⟨[alice], [], 1⟩

/-- The product created by the C7 scenario. -/
def widget7 : Product := ⟨1, "Widget", none, mkRat 999 100, 3, "auth0|alice"⟩

/-- Empty store for the first user resolution. -/
def exDb5 : DB := ⟨[], [], 1⟩

/-- Verified claims for a fresh subject. -/
def exP5 : Payload :=
  [("sub", .pyStr "auth0|u1"), ("email", .pyStr "u1@example.com")]

/-- The user created from `exP5`. -/
def exUser5 : User := ⟨"auth0|u1", .pyStr "u1@example.com", none, false⟩

/-- Result of the first resolution of `exP5` against `exDb5`. -/
def exOut5 : GocuOut := ⟨exUser5, ⟨[exUser5], [], 1⟩, 1⟩

/-- Store holding `dave` with a stale admin flag. -/
def exDb9 : DB := ⟨[⟨"auth0|dave", .pyStr "dave@example.com", none, false⟩], [], 1⟩

/-- Claims for `dave` whose admin-metadata claim is a non-empty object
whose own `is_admin` field is `false` (truthy as a whole). -/
def exP9 : Payload :=
  [("sub", .pyStr "auth0|dave"),
   ("https://localhost:5000/app_metadata", .pyDict [("is_admin", .pyBool false)])]

/-- `dave` after resolution: flag overwritten to true. -/
def exUser9 : User := ⟨"auth0|dave", .pyStr "dave@example.com", none, true⟩

/-- Result of resolving `exP9` against `exDb9`. -/
def exOut9 : GocuOut := ⟨exUser9, ⟨[exUser9], [], 1⟩, 1⟩

/-- Update body leaving the description alone (empty string) and raising
the price. -/
def exBody10 : ProductUpdate := ⟨some "", some 30, none⟩

/-- `exDb3` after `alice` raises the price of her product to 30. -/
def exDb10after : DB :=
  ⟨[alice, bob], [⟨1, "OldWidget", some "old desc", 30, 5, "auth0|alice"⟩], 2⟩

/-- Update body with price 0, as in the C8 scenario. -/
def exBody8 : ProductUpdate := ⟨none, some 0, none⟩

/-! ## Helper lemmas -/

theorem find?_append_of_none {α : Type} {pred : α → Bool} {l₁ : List α}
    (l₂ : List α) (h : l₁.find? pred = none) :
    (l₁ ++ l₂).find? pred = l₂.find? pred := by
  induction l₁ with
  | nil => simp
  | cons a t ih =>
    rw [List.cons_append]
    rw [List.find?_cons] at h ⊢
    cases hp : pred a with
    | true => simp [hp] at h
    | false => simp only [hp] at h ⊢; exact ih h

theorem find?_map_of_pred {α : Type} (f : α → α) (pred : α → Bool)
    (l : List α) (hf : ∀ x, pred (f x) = pred x) :
    (l.map f).find? pred = (l.find? pred).map f := by
  induction l with
  | nil => rfl
  | cons a t ih =>
    simp only [List.map_cons]
    rw [List.find?_cons, List.find?_cons, hf a]
    cases pred a <;> simp [ih]

/-- Joint case analysis of `get_or_create_user`: the resolved user
carries the claim-derived admin flag, is stored under the subject id in
the resulting store, and the call commits exactly one transaction when
the subject is new or its stored admin flag differs from the
claim-derived one, and none otherwise. -/
theorem gocu_spec (db : DB) (p : Payload) (out : GocuOut)
    (h : get_or_create_user db p = some out) :
    ∃ uid, subOf p = some uid ∧
      out.user.user_id = uid ∧
      out.user.is_admin = claimIsAdmin p ∧
      findUser out.db uid = some out.user ∧
      out.writes = (match findUser db uid with
        | none => 1
        | some u => if u.is_admin = claimIsAdmin p then 0 else 1) := by
  cases hs : subOf p with
  | none =>
    simp only [get_or_create_user, hs] at h
    cases h
  | some uid =>
    simp only [get_or_create_user, hs] at h
    refine ⟨uid, rfl, ?_⟩
    cases hf : findUser db uid with
    | none =>
      simp only [hf, Option.some.injEq] at h
      subst h
      refine ⟨rfl, rfl, ?_, rfl⟩
      unfold findUser
      show (db.users ++ [_]).find? _ = _
      unfold findUser at hf
      rw [find?_append_of_none _ hf]
      simp [List.find?_cons]
    | some u =>
      have hu : u.user_id = uid := by
        have := List.find?_some hf
        simpa using this
      cases hb : (u.is_admin != claimIsAdmin p) with
      | true =>
        simp only [hf, hb, if_true, Option.some.injEq] at h
        subst h
        have hne : ¬ (u.is_admin = claimIsAdmin p) := by
          simpa [bne] using hb
        refine ⟨by simpa using hu, rfl, ?_, by simp [hne]⟩
        unfold findUser
        show (db.users.map _).find? _ = _
        unfold findUser at hf
        rw [find?_map_of_pred]
        · rw [hf]; simp [hu]
        · intro x
          by_cases hx : x.user_id == uid <;> simp [hx]
      | false =>
        simp only [hf, hb, Bool.false_eq_true, if_false, Option.some.injEq] at h
        subst h
        have heq : u.is_admin = claimIsAdmin p := by
          simpa [bne] using hb
        exact ⟨hu, heq, hf, by simp [heq]⟩

theorem descStep_id (product : Product) (d : Option String) :
    (descStep product d).id = product.id := by
  cases d with
  | none => rfl
  | some s => unfold descStep; by_cases hs : (s == "") = true <;> simp [hs]

theorem descStep_name (product : Product) (d : Option String) :
    (descStep product d).name = product.name := by
  cases d with
  | none => rfl
  | some s => unfold descStep; by_cases hs : (s == "") = true <;> simp [hs]

theorem descStep_user_id (product : Product) (d : Option String) :
    (descStep product d).user_id = product.user_id := by
  cases d with
  | none => rfl
  | some s => unfold descStep; by_cases hs : (s == "") = true <;> simp [hs]

theorem descStep_price (product : Product) (d : Option String) :
    (descStep product d).price = product.price := by
  cases d with
  | none => rfl
  | some s => unfold descStep; by_cases hs : (s == "") = true <;> simp [hs]

theorem descStep_quantity (product : Product) (d : Option String) :
    (descStep product d).quantity = product.quantity := by
  cases d with
  | none => rfl
  | some s => unfold descStep; by_cases hs : (s == "") = true <;> simp [hs]

theorem descStep_absent (product : Product) (d : Option String)
    (h : d = none ∨ d = some "") :
    (descStep product d).description = product.description := by
  rcases h with h | h <;> subst h <;> simp [descStep]

theorem descStep_nonempty (product : Product) (d : Option String) (s : String)
    (hs : product.description = some s) (hne : ¬ s = "") :
    ∃ t, (descStep product d).description = some t ∧ ¬ t = "" := by
  cases d with
  | none => exact ⟨s, hs, hne⟩
  | some ds =>
    unfold descStep
    by_cases hds : (ds == "") = true
    · simp [hds]
      exact ⟨s, hs, hne⟩
    · simp [hds]
      simpa using hds

/-- Frame facts of `applyUpdate` on the success path. -/
theorem applyUpdate_frame (product : Product) (body : ProductUpdate)
    (p2 : Product) (h : applyUpdate product body = .ok p2) :
    p2.id = product.id ∧ p2.name = product.name ∧
    p2.user_id = product.user_id ∧
    ((body.description = none ∨ body.description = some "") →
      p2.description = product.description) ∧
    (body.price = none → p2.price = product.price) ∧
    (body.quantity = none → p2.quantity = product.quantity) ∧
    (∀ s, product.description = some s → ¬ s = "" →
      ∃ t, p2.description = some t ∧ ¬ t = "") := by
  unfold applyUpdate at h
  rcases hp : body.price with _ | pr <;>
    rcases hq : body.quantity with _ | q <;>
      simp only [hp, hq] at h
  · simp only [Except.ok.injEq] at h
    subst h
    exact ⟨descStep_id .., descStep_name .., descStep_user_id ..,
      fun hd => descStep_absent _ _ hd, fun _ => descStep_price ..,
      fun _ => descStep_quantity ..,
      fun s hs hne => descStep_nonempty _ _ s hs hne⟩
  · split at h
    · cases h
    · simp only [Except.ok.injEq] at h
      subst h
      refine ⟨descStep_id .., descStep_name .., descStep_user_id ..,
        fun hd => descStep_absent _ _ hd, fun _ => descStep_price .., ?_,
        fun s hs hne => descStep_nonempty _ _ s hs hne⟩
      intro hq2; simp at hq2
  · split at h
    · cases h
    · simp only [Except.ok.injEq] at h
      subst h
      refine ⟨descStep_id .., descStep_name .., descStep_user_id ..,
        fun hd => descStep_absent _ _ hd, ?_, fun _ => descStep_quantity ..,
        fun s hs hne => descStep_nonempty _ _ s hs hne⟩
      intro hp2; simp at hp2
  · split at h
    · cases h
    · split at h
      · cases h
      · simp only [Except.ok.injEq] at h
        subst h
        refine ⟨descStep_id .., descStep_name .., descStep_user_id ..,
          fun hd => descStep_absent _ _ hd, ?_, ?_,
          fun s hs hne => descStep_nonempty _ _ s hs hne⟩
        · intro hp2; simp at hp2
        · intro hq2; simp at hq2

/-- Every early return of `applyUpdate` is a 400 response. -/
theorem applyUpdate_error_status (product : Product) (body : ProductUpdate)
    (r0 : Response) (h : applyUpdate product body = .error r0) :
    r0.status = 400 := by
  unfold applyUpdate at h
  rcases hp : body.price with _ | pr <;>
    rcases hq : body.quantity with _ | q <;>
      simp only [hp, hq] at h
  · cases h
  · split at h
    · simp only [Except.error.injEq] at h; subst h; rfl
    · cases h
  · split at h
    · simp only [Except.error.injEq] at h; subst h; rfl
    · cases h
  · split at h
    · simp only [Except.error.injEq] at h; subst h; rfl
    · split at h
      · simp only [Except.error.injEq] at h; subst h; rfl
      · cases h

/-- `parseAuthParts` agrees with the part-count classification of the
amended C2 contract. -/
theorem parseAuthParts_contract (parts : List String) :
    parseAuthParts parts =
      (if parts.length == 0 then TokenSource.pyError "list index out of range"
       else if !(strLower (parts.headD "") == "bearer") then
         .authError "invalid_header"
           "Authorization header must start with Bearer" 401
       else if parts.length == 1 then
         .authError "invalid_header" "Token not found" 401
       else if decide (parts.length > 2) then
         .authError "invalid_header"
           "Authorization header must be Bearer token" 401
       else .token (parts.getD 1 "")) := by
  cases parts with
  | nil => rfl
  | cons p0 rest =>
    cases hb : (strLower p0 == "bearer") with
    | false => simp [parseAuthParts, hb]
    | true =>
      cases rest with
      | nil => simp [parseAuthParts, hb]
      | cons t1 tl =>
        cases tl with
        | nil => simp [parseAuthParts, hb, List.getD]
        | cons t2 tl2 =>
          have hlen : ((p0 :: t1 :: t2 :: tl2).length > 2) := by
            simp [List.length]
          simp [parseAuthParts, hb, hlen]

/-! ## Claim theorems -/

/-- **C1** (code bug at the generic decode-failure branch):
`verify_jwt` maps an unmatched key id to `invalid_header` ("Unable to
find appropriate key", 401), an expired token to `token_expired` (401),
an audience/issuer mismatch to `invalid_claims` (401), and only a
successful decode to an accepted payload — but for any other
signature/decode failure it raises an untyped `NameError` ("name 'e' is
not defined") from the unbound `e` in its logging line, instead of the
typed `invalid_header` error on the following line. -/
theorem C1_verify_jwt_error_mapping :
    verify_jwt [exKey] "other-kid" (.ok aliceP)
      = .authError "invalid_header" "Unable to find appropriate key" 401 ∧
    verify_jwt [exKey] "kid1" .expired
      = .authError "token_expired" "Token is expired" 401 ∧
    verify_jwt [exKey] "kid1" .claimsError
      = .authError "invalid_claims"
          "Incorrect claims, please check the audience and issuer" 401 ∧
    verify_jwt [exKey] "kid1" (.ok aliceP) = .payload aliceP ∧
    verify_jwt [exKey] "kid1" .otherError = .pyError "name 'e' is not defined" :=
  ⟨rfl, rfl, rfl, rfl, rfl⟩

/-- **C2** (counterexample): a present, whitespace-only Authorization
header is malformed (it has no "Bearer" scheme), yet
`get_token_auth_header` raises an uncaught `IndexError` at `parts[0]`
instead of failing with any of its `invalid_header` errors. -/
theorem C2_counterexample :
    get_token_auth_header (some " ") none = .pyError "list index out of range" ∧
    get_token_auth_header (some " ") none ≠
      .authError "invalid_header"
        "Authorization header must start with Bearer" 401 ∧
    get_token_auth_header (some " ") none ≠
      .authError "invalid_header" "Token not found" 401 ∧
    get_token_auth_header (some " ") none ≠
      .authError "invalid_header"
        "Authorization header must be Bearer token" 401 :=
  ⟨rfl, by decide, by decide, by decide⟩

/-- **C2** (amended): `get_token_auth_header` implements the header
contract with two corrections: an empty-string header is treated as
absent (session fallback), and a present all-whitespace header — zero
whitespace-separated parts — raises `IndexError` rather than
`invalid_header`; in all other cases a well-formed `Bearer {token}`
header yields the token, an absent header falls back to the session or
`authorization_header_missing` (401), and a malformed header (wrong
scheme, one part, or more than two parts) fails `invalid_header`
(401). -/
theorem C2_header_extraction_contract (hdr : Option String)
    (sess : Option String) :
    get_token_auth_header hdr sess = tokenHeaderContract hdr sess := by
  cases hdr with
  | none =>
    unfold get_token_auth_header tokenHeaderContract sessionFallback
    cases sess <;> rfl
  | some a =>
    unfold get_token_auth_header tokenHeaderContract sessionFallback
    by_cases ha : (a == "") = true
    · simp only [Option.getD, ha, if_true]
    · simp only [Option.getD, ha, Bool.false_eq_true, if_false]
      exact parseAuthParts_contract (pySplit a)

/-- **C3** (code bug in `requires_auth`): for a non-owner, non-admin
authenticated user, `update_product` and `delete_product` themselves
abort with 403 and leave the store unchanged, but because
`requires_auth` catches every exception of the wrapped handler —
including the 403 `HTTPException` — and re-raises it as
`AuthError("invalid_token", str(e), 401)`, the end-to-end response is
401, not the claimed 403.  The product store is unchanged either way. -/
theorem C3_ownership_403_becomes_401 :
    update_product 1 ⟨none, some 5, none⟩ bob exDb3
      = .error (abortExc 403
          (some "You don't have permission to edit this product.")) ∧
    delete_product 1 bob exDb3
      = .error (abortExc 403
          (some "You don't have permission to delete this product.")) ∧
    update_endpoint (some "Bearer tok") none [exKey] "kid1" (.ok bobP) 1
        ⟨none, some 5, none⟩ exDb3
      = (⟨401, .errorBody "invalid_token"
          "403 Forbidden: You don't have permission to edit this product."⟩,
         exDb3) ∧
    delete_endpoint (some "Bearer tok") none [exKey] "kid1" (.ok bobP) 1 exDb3
      = (⟨401, .errorBody "invalid_token"
          "403 Forbidden: You don't have permission to delete this product."⟩,
         exDb3) :=
  ⟨rfl, rfl, rfl, rfl⟩

/-- **C4** (code bug in `requires_auth`): `requires_admin` itself aborts
401 with no user in context, aborts 403 for a non-admin, and runs the
wrapped operation for an admin (here `POST /admin/set` succeeds and
promotes the target), but the claimed scenario — `POST /admin/set` by an
authenticated non-admin — ends in 401, because `requires_auth` converts
the guard's 403 `HTTPException` into an `invalid_token` `AuthError`
with status 401. -/
theorem C4_requires_admin_guard :
    requires_admin none (set_admin "x@example.com" true) exDb4
      = .error (abortExc 401 none) ∧
    admin_set_endpoint (some "Bearer tok") none [exKey] "kid1" (.ok bobP)
        "x@example.com" true exDb4
      = (⟨401, .errorBody "invalid_token"
          ("403 Forbidden: " ++ werkzeugDefaultDescription 403)⟩, exDb4) ∧
    admin_set_endpoint (some "Bearer tok") none [exKey] "kid1"
        (.ok alicePAdmin) "x@example.com" true exDb4
      = (⟨200, .message
          "User set as admin successfully in both local database and Auth0"⟩,
         exDb4after) :=
  ⟨rfl, rfl, rfl⟩

/-- **C5**: user resolution is idempotent with respect to writes —
re-resolving the payload's subject against the store a resolution
produced performs zero commits and returns the same user with the same
store; and a resolution commits exactly one create-or-update
transaction precisely when the subject is new or its stored admin flag
differs from the claim-derived one. -/
theorem C5_user_resolution_idempotent (db : DB) (p : Payload) (out : GocuOut)
    (h : get_or_create_user db p = some out) :
    get_or_create_user out.db p
      = some { user := out.user, db := out.db, writes := 0 } ∧
    ∀ uid, subOf p = some uid →
      out.writes = (match findUser db uid with
        | none => 1
        | some u => if u.is_admin = claimIsAdmin p then 0 else 1) := by
  obtain ⟨uid, hs, hid, hadm, hfind, hw⟩ := gocu_spec db p out h
  constructor
  · simp only [get_or_create_user, hs, hfind]
    have hb : (out.user.is_admin != claimIsAdmin p) = false := by
      simp [bne, hadm]
    simp [hb]
  · intro uid2 hs2
    rw [hs] at hs2
    simp only [Option.some.injEq] at hs2
    subst hs2
    exact hw

/-- Witness for C5: resolving a fresh subject creates the user with one
commit, and resolving it again against the produced store performs zero
writes and returns the same user. -/
theorem C5_witness :
    get_or_create_user exDb5 exP5 = some exOut5 ∧
    subOf exP5 = some "auth0|u1" ∧
    get_or_create_user exOut5.db exP5
      = some { user := exOut5.user, db := exOut5.db, writes := 0 } ∧
    exOut5.writes = 1 :=
  ⟨rfl, rfl,
    (C5_user_resolution_idempotent exDb5 exP5 exOut5 rfl).1,
    (C5_user_resolution_idempotent exDb5 exP5 exOut5 rfl).2 "auth0|u1" rfl⟩

/-- **C6** (code bug in `requires_auth`): an unclassified exception in an
unprotected handler reaches `handle_exception` and yields the generic
500 body, but the same exception raised inside a `requires_auth`-wrapped
handler is converted by the decorator's catch-all into a 401
`invalid_token` response whose description is `str(e)` — leaking the
exception's message instead of the claimed generic 500. -/
theorem C6_unclassified_exception_leak :
    appBoundary (unprotected_run
        (fun _db => .error (.other "secret internal detail")) exDb3)
      = (⟨500, .errorMsg "An unexpected error occurred"⟩, exDb3) ∧
    appBoundary (requires_auth_run (some "Bearer tok") none [exKey] "kid1"
        (.ok bobP) exDb3
        (fun _u _db => .error (.other "secret internal detail")))
      = (⟨401, .errorBody "invalid_token" "secret internal detail"⟩, exDb3) :=
  ⟨rfl, rfl⟩

/-- **C7** (code bug at the price check): the claimed scenario (name
"Widget", price 9.99, quantity 3) does return 202 and the created
product, owned by the authenticated user, appears in a subsequent
`GET /products` with exactly those fields — but the claim's
quantification over every positive price fails: price 0.5 is positive
and passes the schema's `gt=0`, yet `add_product` rejects it with
400 "Price must be higher than 0." because its check is
`body.price < 1`, and no product is stored. -/
theorem C7_create_scenario_and_price_bug :
    create_endpoint (some "Bearer tok") none [exKey] "kid1" (.ok aliceP)
        ⟨some "Widget", none, some (mkRat 999 100), some 3⟩ exDb7
      = (⟨202, .message "Product added successfully!"⟩,
         ⟨[alice], [widget7], 2⟩) ∧
    get_products ⟨[alice], [widget7], 2⟩ = ⟨200, .productList [widget7]⟩ ∧
    widget7.user_id = alice.user_id ∧
    create_endpoint (some "Bearer tok") none [exKey] "kid1" (.ok aliceP)
        ⟨some "Widget", none, some (mkRat 1 2), some 3⟩ exDb7
      = (⟨400, .message "Price must be higher than 0."⟩, exDb7) ∧
    (0 : ℚ) < mkRat 1 2 ∧
    (mkRat 999 100 : ℚ) = 9.99 ∧
    (mkRat 1 2 : ℚ) = 0.5 :=
  ⟨rfl, rfl, rfl, rfl, by decide,
   by norm_num [mkRat, Rat.normalize], by norm_num [mkRat, Rat.normalize]⟩

/-- **C8** (counterexample): a `PUT /products/1/update` with body price 0
on an existing product returns 422 — the `ProductUpdate` schema's `gt=0`
rejects the body before the handler runs — not the claimed 400.  The
store (hence the product's price) is unchanged. -/
theorem C8_counterexample :
    update_endpoint (some "Bearer tok") none [exKey] "kid1" (.ok aliceP) 1
        exBody8 exDb3
      = (⟨422, .validationError⟩, exDb3) ∧
    (update_endpoint (some "Bearer tok") none [exKey] "kid1" (.ok aliceP) 1
        exBody8 exDb3).1.status ≠ 400 :=
  ⟨rfl, by decide⟩

/-- **C8** (amended): for every update request whose body has price 0,
the endpoint answers 422 (schema validation failure) and the store —
in particular the product's price — is unchanged. -/
theorem C8_price_zero_is_422 (hdr : Option String) (sess : Option String)
    (keys : List JwksKey) (headerKid : String) (dec : DecodeOutcome)
    (pid : Nat) (body : ProductUpdate) (db : DB)
    (hp : body.price = some 0) :
    update_endpoint hdr sess keys headerKid dec pid body db
      = (⟨422, .validationError⟩, db) := by
  have hv : validateProductUpdate body = false := by
    unfold validateProductUpdate
    rw [hp]
    simp
  unfold update_endpoint
  rw [hv]
  simp

/-- Witness for the amended C8 at the claimed scenario input. -/
theorem C8_witness :
    exBody8.price = some 0 ∧
    update_endpoint (some "Bearer tok") none [exKey] "kid1" (.ok aliceP) 1
        exBody8 exDb3
      = (⟨422, .validationError⟩, exDb3) :=
  ⟨rfl, C8_price_zero_is_422 (some "Bearer tok") none [exKey] "kid1"
      (.ok aliceP) 1 exBody8 exDb3 rfl⟩

/-- **C9**: after `get_or_create_user` runs, the resolved user's admin
flag equals the truthiness of the claim keyed
`https://localhost:5000/app_metadata` (false when absent), and the user
stored under the subject id in the resulting store carries exactly that
flag — so a stored flag that differs is overwritten on every
resolution, whatever payload (token claims or the callback's userinfo)
triggered it. -/
theorem C9_admin_flag_from_app_metadata (db : DB) (p : Payload) (out : GocuOut)
    (h : get_or_create_user db p = some out) :
    out.user.is_admin = ((pget p app_metadata_key).map PyVal.truthy).getD false ∧
    ∀ uid, subOf p = some uid → findUser out.db uid = some out.user := by
  obtain ⟨uid, hs, hid, hadm, hfind, hw⟩ := gocu_spec db p out h
  constructor
  · rw [hadm]
    unfold claimIsAdmin
    cases pget p app_metadata_key <;> simp [PyVal.truthy]
  · intro uid2 hs2
    rw [hs] at hs2
    simp only [Option.some.injEq] at hs2
    subst hs2
    exact hfind

/-- Witness for C9: a stored non-admin whose claim carries a non-empty
`app_metadata` object with `is_admin: false` inside is overwritten to
admin (the object is truthy regardless of its content). -/
theorem C9_witness :
    get_or_create_user exDb9 exP9 = some exOut9 ∧
    exOut9.user.is_admin
      = ((pget exP9 app_metadata_key).map PyVal.truthy).getD false ∧
    exOut9.user.is_admin = true ∧
    findUser exOut9.db "auth0|dave" = some exOut9.user :=
  ⟨rfl,
   (C9_admin_flag_from_app_metadata exDb9 exP9 exOut9 rfl).1,
   rfl,
   (C9_admin_flag_from_app_metadata exDb9 exP9 exOut9 rfl).2 "auth0|dave" rfl⟩

/-- **C10**: a successful (203) `update_product` leaves the product's
id, name and owning user id unchanged, leaves every field whose body
value is absent unchanged, treats an empty-string description as absent,
and therefore can never clear an existing non-empty description to
empty; the product remains in the store. -/
theorem C10_update_success_frame (user : User) (pid : Nat)
    (body : ProductUpdate) (db : DB) (r : Response) (db2 : DB)
    (old : Product) (hold : findProduct db pid = some old)
    (h : update_product pid body user db = .ok (r, db2))
    (hstatus : r.status = 203) :
    ∃ nw, findProduct db2 pid = some nw ∧
      nw.id = old.id ∧ nw.name = old.name ∧ nw.user_id = old.user_id ∧
      ((body.description = none ∨ body.description = some "") →
        nw.description = old.description) ∧
      (body.price = none → nw.price = old.price) ∧
      (body.quantity = none → nw.quantity = old.quantity) ∧
      (∀ s, old.description = some s → ¬ s = "" →
        ∃ t, nw.description = some t ∧ ¬ t = "") := by
  have hoid : (old.id == pid) = true := by
    have := List.find?_some hold
    simpa using this
  unfold update_product at h
  simp only [hold] at h
  split at h
  · cases h
  · cases happ : applyUpdate old body with
    | error r0 =>
      rw [happ] at h
      simp only [Except.ok.injEq, Prod.mk.injEq] at h
      obtain ⟨hr, _⟩ := h
      have := applyUpdate_error_status old body r0 happ
      rw [← hr] at hstatus
      rw [hstatus] at this
      cases this
    | ok p2 =>
      rw [happ] at h
      simp only [Except.ok.injEq, Prod.mk.injEq] at h
      obtain ⟨hr, hdb⟩ := h
      obtain ⟨hid, hname, huid, habsent, hprice, hqty, hnonempty⟩ :=
        applyUpdate_frame old body p2 happ
      refine ⟨p2, ?_, hid, hname, huid, habsent, hprice, hqty, hnonempty⟩
      subst hdb
      unfold findProduct replaceProduct
      show ((db.products.map _).find? _) = _
      rw [find?_map_of_pred]
      · unfold findProduct at hold
        rw [hold]
        have heq : old.id = pid := by simpa using hoid
        simp [heq]
      · intro x
        by_cases hx : (x.id == pid) = true
        · rw [if_pos hx, hx]
          rw [show (p2.id == pid) = true by rw [hid]; exact hoid]
        · rw [if_neg hx]

/-- Witness for C10: the owner updates the product with an empty-string
description and a new price; the update succeeds with 203, the
description stays "old desc", and id, name, owner and quantity are
untouched. -/
theorem C10_witness :
    findProduct exDb3 1 = some widget ∧
    update_product 1 exBody10 alice exDb3
      = .ok (⟨203, .message "Product updated successfully."⟩, exDb10after) ∧
    (∃ nw, findProduct exDb10after 1 = some nw ∧
      nw.id = widget.id ∧ nw.name = widget.name ∧
      nw.user_id = widget.user_id ∧
      ((exBody10.description = none ∨ exBody10.description = some "") →
        nw.description = widget.description) ∧
      (exBody10.price = none → nw.price = widget.price) ∧
      (exBody10.quantity = none → nw.quantity = widget.quantity) ∧
      (∀ s, widget.description = some s → ¬ s = "" →
        ∃ t, nw.description = some t ∧ ¬ t = "")) :=
  ⟨rfl, rfl,
   C10_update_success_frame alice 1 exBody10 exDb3
     ⟨203, .message "Product updated successfully."⟩ exDb10after widget
     rfl rfl rfl⟩

end DMarket
